import Mathlib

/-!
Verification development for the OlehAssist chat application (`src/app.py`).

The development shallowly embeds the parts of `app.py` that the verified
properties are about: the Python string primitives the code relies on
(`str.lower`, `str.upper`, `str.strip`, substring membership `in`), the
knowledge-base search tool `search_aliyah_information` (lines 51-121), the
BigQuery tool `find_ministry_of_aliyah_branch` (lines 123-139), the startup
schema lookup (lines 147-150), the upload-command handling (lines 342-359),
the tool-calling loop (lines 367-402) and the menu canonicalization
(lines 405-416).

External effects are made explicit parameters: the search backend's response
becomes a list of result records, a BigQuery execution becomes an
`Except String (List Row)` (`.error` = the backend raised), the LLM chat
session becomes a function from the index of the function-response send to
the next response.
-/

namespace OlehAssist

/-! ## Python string primitives -/

/-- Python `str.lower`: character-wise lowercasing (`user_text.lower()`,
app.py line 345). -/
def pyLower (s : String) : String := ⟨s.data.map Char.toLower⟩

/-- Python `str.upper`: character-wise uppercasing (`text.upper()`,
app.py line 410). -/
def pyUpper (s : String) : String := ⟨s.data.map Char.toUpper⟩

/-- Python `str.strip` with no argument: remove whitespace from both ends
(`.strip()`, app.py lines 93 and 102). -/
def pyStrip (s : String) : String :=
  ⟨((s.data.dropWhile Char.isWhitespace).reverse.dropWhile Char.isWhitespace).reverse⟩

/-- Helper for Python substring membership: whether `pat` is a prefix of the
second list. -/
def prefixAux : List Char → List Char → Bool
  | [], _ => true
  | _ :: _, [] => false
  | a :: as, b :: bs => a == b && prefixAux as bs

/-- Helper for Python substring membership: whether `pat` occurs in the
second list. -/
def substrAux (pat : List Char) : List Char → Bool
  | [] => pat.isEmpty
  | b :: rest => prefixAux pat (b :: rest) || substrAux pat rest

/-- Python substring membership `pat in s` (`key in text.upper()`,
app.py line 410). -/
def strContains (s pat : String) : Bool := substrAux pat.data s.data

/-! ## Search tool (`search_aliyah_information`, app.py lines 51-121)

The Discovery Engine backend response is embedded as the list of its result
records: each result's `document.derived_struct_data` (guarded in the code by
`hasattr`) carries a `link`, a list of extractive segments and a list of
snippets, each `.get` defaulting to the empty value as in the code. -/

/-- One entry of `derived_struct_data['extractive_segments']`; the code reads
`segment.get('content', '')` (app.py line 93). -/
structure SegmentItem where
  content : String
deriving DecidableEq

/-- One entry of `derived_struct_data['snippets']`; the code reads
`snippet_item.get('snippet', '')` (app.py line 102). -/
structure SnippetItem where
  snippet : String
deriving DecidableEq

/-- The fields of `result.document.derived_struct_data` the code reads
(app.py lines 87-100); the `.get(..., default)` calls make each field total. -/
structure DerivedStructData where
  link : String
  extractive_segments : List SegmentItem
  snippets : List SnippetItem
deriving DecidableEq

/-- `result.document`: `derived_struct_data` is optional because the code
guards it with `hasattr(result.document, 'derived_struct_data')`
(app.py line 86). -/
structure ResultDocument where
  derived_struct_data : Option DerivedStructData
deriving DecidableEq

/-- One element of `response.results` (app.py line 84). -/
structure SearchResult where
  document : ResultDocument
deriving DecidableEq

/-- The placeholder snippet value the code filters out (app.py line 103). -/
def snippet_placeholder : String := "No snippet is available for this page."

/-- Text contributed by one extractive segment (app.py lines 92-98):
strip the content; if non-empty, emit a bullet line with the source link
appended when the link is non-empty, terminated by a newline. -/
def segmentLine (link : String) (segment : SegmentItem) : String :=
  let content := pyStrip segment.content
  if content ≠ "" then
    "- " ++ content ++ (if link ≠ "" then " (Source: " ++ link ++ ")" else "") ++ "\n"
  else ""

/-- Text contributed by one snippet (app.py lines 101-107): same as
`segmentLine` but additionally filtering out the placeholder snippet. -/
def snippetLine (link : String) (item : SnippetItem) : String :=
  let snippet_content := pyStrip item.snippet
  if snippet_content ≠ "" ∧ snippet_content ≠ snippet_placeholder then
    "- " ++ snippet_content ++ (if link ≠ "" then " (Source: " ++ link ++ ")" else "") ++ "\n"
  else ""

/-- Text contributed by one search result (app.py lines 84-107): nothing
without `derived_struct_data`; with it, the extractive segments when that
list is non-empty (Python truthiness of `extractive_segments`), otherwise
the snippets. -/
def resultText (r : SearchResult) : String :=
  match r.document.derived_struct_data with
  | none => ""
  | some data =>
    if data.extractive_segments ≠ [] then
      String.join (data.extractive_segments.map (segmentLine data.link))
    else
      String.join (data.snippets.map (snippetLine data.link))

/-- The accumulated `results_text` of the loop over `response.results`
(app.py lines 82-107). -/
def search_results_text (results : List SearchResult) : String :=
  String.join (results.map resultText)

/-- The fixed message for a response with zero result documents
(app.py line 115). -/
def no_info_message : String := "No specific information found regarding your question."

/-- The fixed message for a response with documents but no usable content
(app.py line 113). -/
def no_answer_message : String :=
  "I could not find an answer to your question. Try rephrasing your question or being more specific."

/-- `search_aliyah_information` on a backend response (app.py lines 82-117):
`has_documents` is set inside the result loop, so it holds exactly when the
result list is non-empty; an empty `results_text` selects one of the two
fixed messages, otherwise the accumulated text is returned. -/
def search_aliyah_information (results : List SearchResult) : String :=
  let results_text := search_results_text results
  if results_text = "" then
    if results.isEmpty then no_info_message else no_answer_message
  else results_text

/-! ## BigQuery tool (`find_ministry_of_aliyah_branch`, app.py lines 123-139) -/

/-- A BigQuery result row materialized by `dict(row.items())`
(app.py line 134): a mapping from column name to value, kept as an
association list to preserve the backend's column order. -/
abbrev Row : Type := List (String × String)

/-- `find_ministry_of_aliyah_branch` (app.py lines 123-139). The backend
execution `bq_client.query(query)` / `query_job.result()` is embedded as an
`Except String (List Row)` argument, `.error e` meaning the execution raised
with message `e`; the `try/except` of the body converts a raise into the
returned sentinel `[{"error": str(e)}]`. -/
def find_ministry_of_aliyah_branch (query_result : Except String (List Row)) : List Row :=
  match query_result with
  | .ok rows => rows
  | .error e => [[("error", e)]]

/-- Exception-tracking embedding of the same function: the result is
`.error` exactly when the Python function itself would raise. The body
wraps the whole execution in `try/except` and returns in both branches
(app.py lines 129-139), so both cases produce `.ok`. -/
def find_ministry_of_aliyah_branch_exc (query_result : Except String (List Row)) :
    Except String (List Row) :=
  match query_result with
  | .ok rows => .ok rows
  | .error e => .ok [[("error", e)]]

/-! ## Startup schema lookup (app.py lines 147-150) -/

/-- The value of the module-level `branch_schema` variable: either the row
list returned by `find_ministry_of_aliyah_branch`, or the fallback string
`"Schema unavailable"` from the `except:` branch. -/
inductive BranchSchema where
  | rows : List Row → BranchSchema
  | unavailable : BranchSchema
deriving DecidableEq

/-- The `try: branch_schema = find_ministry_of_aliyah_branch(schema_query)
except: branch_schema = "Schema unavailable"` block (app.py lines 147-150),
with the call's raising behavior taken from
`find_ministry_of_aliyah_branch_exc`. -/
def computeBranchSchema (schema_query_result : Except String (List Row)) : BranchSchema :=
  match find_ministry_of_aliyah_branch_exc schema_query_result with
  | .ok rows => .rows rows
  | .error _ => .unavailable

/-- The schema-bearing fragment of the `FIRST_TASKS_PATH` f-string
(app.py line 278): `branch_schema` is interpolated after
`"Table Schema to use: "` into the system instruction text. Only the
line carrying the interpolation is embedded; the surrounding prompt prose
does not affect any verified property. -/
def first_tasks_path (branch_schema : String) : String :=
  "  * Table Schema to use: " ++ branch_schema ++
    "\n  * SQL Generation Rule: Generate a valid BigQuery SQL query to find the contact info for that city."

/-! ## LLM responses and the tool-calling loop (app.py lines 361-402) -/

/-- A function-call request carried by a response part
(`part.function_call`, app.py lines 377-386): a tool name and its single
`query` keyword argument (both registered tools take exactly one `query`
parameter, and `**fc.args` forwards it). -/
structure FunctionCall where
  name : String
  args : String
deriving DecidableEq

/-- One part of a candidate's content: the code tests
`hasattr(part, 'function_call') and part.function_call` (app.py line 377),
so a part either carries a function call or does not. -/
structure Part where
  text : Option String
  function_call : Option FunctionCall
deriving DecidableEq

/-- `candidate.content` (app.py line 375). -/
structure Content where
  parts : List Part
deriving DecidableEq

/-- One element of `response.candidates` (app.py line 374). -/
structure Candidate where
  content : Content
deriving DecidableEq

/-- An LLM response: its candidates and its aggregated `response.text`
(`None` when the library exposes no text, app.py line 405). -/
structure Response where
  candidates : List Candidate
  text : Option String
deriving DecidableEq

/-- The value computed by one tool dispatch: either the search tool's text,
or the BigQuery tool's row list, or the literal sentinel text. -/
inductive ToolOutput where
  | text : String → ToolOutput
  | rows : List Row → ToolOutput
deriving DecidableEq

/-- Tool dispatch (app.py lines 388-393): the two registered names call
their tools with the forwarded argument; any other name yields the literal
sentinel `"Unknown tool."`. The network-bound tool bodies are parameters
`searchImpl` and `branchImpl`. -/
def dispatchTool (searchImpl : String → String) (branchImpl : String → List Row)
    (fc : FunctionCall) : ToolOutput :=
  if fc.name = "search_aliyah_information" then .text (searchImpl fc.args)
  else if fc.name = "find_ministry_of_aliyah_branch" then .rows (branchImpl fc.args)
  else .text "Unknown tool."

/-- A function-response message sent back to the chat session
(`types.Part.from_function_response(name=..., response={"content": ...})`,
app.py lines 395-397). -/
structure SentFunctionResponse where
  name : String
  content : ToolOutput
deriving DecidableEq

/-- The state of the loop when it exits: the last response, the final value
of `iteration`, and the function responses sent, in send order. -/
structure LoopResult where
  response : Response
  iteration : Nat
  sent : List SentFunctionResponse
deriving DecidableEq

/-- `max_iterations = 5` (app.py line 367). -/
def max_iterations : Nat := 5

/-- The scan of app.py lines 374-380: when the candidate list is non-empty,
the first part of the FIRST candidate whose `function_call` is set (the
`for`/`break`), and that part's function call; `none` when there is no
candidate or no such part. -/
def firstFunctionCall (resp : Response) : Option FunctionCall :=
  match resp.candidates with
  | [] => none
  | c :: _ =>
    (c.content.parts.find? (fun p => p.function_call.isSome)).bind (fun p => p.function_call)

/-- The tool-calling `while` loop (app.py lines 370-399). `oracle k` is the
chat session's reply to the `k`-th function-response send
(`st.session_state.chat_session.send_message(...)`, line 395). Each pass:
if `iteration < max_iterations` fails, exit; otherwise scan for the first
function-call part, exit if none, else dispatch it, record the sent
function response, replace the response by the oracle's next one and
increment `iteration`. -/
def toolLoop (oracle : Nat → Response) (searchImpl : String → String)
    (branchImpl : String → List Row) (resp : Response) (iteration : Nat)
    (sent : List SentFunctionResponse) : LoopResult :=
  if _h : iteration < max_iterations then
    match firstFunctionCall resp with
    | none => ⟨resp, iteration, sent.reverse⟩
    | some fc =>
        toolLoop oracle searchImpl branchImpl (oracle iteration) (iteration + 1)
          (⟨fc.name, dispatchTool searchImpl branchImpl fc⟩ :: sent)
  else ⟨resp, iteration, sent.reverse⟩
termination_by max_iterations - iteration
decreasing_by omega

/-! ## Menu canonicalization (app.py lines 405-416) -/

/-- `menu_keywords` (app.py line 408). -/
def menu_keywords : List String :=
  ["GENERAL INFORMATION", "DOCUMENT UNDERSTANDING", "FIRST STEPS"]

/-- The canonical fixed three-option menu the text is replaced with
(app.py lines 411-416). -/
def canonical_menu : String :=
  "I can help you with a few things. Please choose one of the following options:\n\n" ++
  "**A) GENERAL INFORMATION:**\n(rights, benefits, Sal Klita, health care, etc.)\n\n" ++
  "**B) DOCUMENT UNDERSTANDING:**\n(confusing forms, bills, letters, etc.)\n\n" ++
  "**C) FIRST STEPS & APPOINTMENTS:**\n(Guiding for essential first steps in Israel, " ++
  "such as setting up a phone, bank account, and making your Ministry of Aliyah Appointment)"

/-- The menu formatting step (app.py line 410): `if text and all(key in
text.upper() for key in menu_keywords)` replace `text` by the canonical
menu; Python's truthiness of `text` is the emptiness test, written as the
first branch. -/
def menuCanonicalize (text : String) : String :=
  if text = "" then text
  else if menu_keywords.all (fun k => strContains (pyUpper text) k) then canonical_menu
  else text

/-! ## Upload-command handling and the whole turn (app.py lines 332-424) -/

/-- The sidebar file payload (`uploaded_file.getvalue()` and
`uploaded_file.type`, app.py lines 348-349). -/
structure UploadedFile where
  bytes : List Nat
  mime : String
deriving DecidableEq

/-- One outgoing message part (`message_parts`, app.py lines 342-353):
plain text or `types.Part.from_bytes(data=..., mime_type=...)`. -/
inductive MsgPart where
  | text : String → MsgPart
  | fileData : List Nat → String → MsgPart
deriving DecidableEq

/-- The fixed instruction text sent with an uploaded document
(app.py line 351). -/
def upload_instruction : String := "Please explain this document for me."

/-- The fixed warning appended when 'upload' is typed with no file attached
(app.py line 356). -/
def upload_warning : String :=
  "📁 No file attached. Please attach a file using the chat input, then type 'upload' again."

/-- The fallback text when the final response has no text (app.py line 422). -/
def fallback_message : String := "I'm sorry, I didn't catch that. Could you please repeat?"

/-- The upload-command handling (app.py lines 342-359). `message_parts`
starts as `[user_text]`; when `user_text.lower() == "upload"` (note: the
code does NOT strip the text) the parts are replaced by the fixed
instruction plus the binary part when a file is attached, and otherwise the
turn short-circuits (`st.stop()`) with the fixed warning, embedded as
`Except.error upload_warning`. -/
def prepare_message_parts (user_text : String) (uploaded_file : Option UploadedFile) :
    Except String (List MsgPart) :=
  if pyLower user_text = "upload" then
    match uploaded_file with
    | some f => .ok [.text upload_instruction, .fileData f.bytes f.mime]
    | none => .error upload_warning
  else .ok [.text user_text]

/-- One whole user turn (app.py lines 332-424), returning the assistant
transcript additions of the turn. A short-circuit from the upload gate
appends exactly the warning and never touches the LLM; otherwise the
prepared parts are sent (`send`), the tool loop runs, and the final text is
extracted (`response.text if response.text else ""`), menu-canonicalized,
and replaced by the fallback when empty. -/
def runTurn (oracle : Nat → Response) (send : List MsgPart → Response)
    (searchImpl : String → String) (branchImpl : String → List Row)
    (user_text : String) (uploaded_file : Option UploadedFile) : List String :=
  match prepare_message_parts user_text uploaded_file with
  | .error w => [w]
  | .ok parts =>
      let result := toolLoop oracle searchImpl branchImpl (send parts) 0 []
      let text := (result.response.text).getD ""
      let text2 := menuCanonicalize text
      if text2 = "" then [fallback_message] else [text2]

/-! ## Helper lemmas -/

/-- `prefixAux` accepts a list followed by anything. -/
theorem prefixAux_append (l t : List Char) : prefixAux l (l ++ t) = true := by
  induction l with
  | nil => rfl
  | cons a as ih => simp [prefixAux, ih]

/-- `substrAux` finds a pattern occurring anywhere in the list. -/
theorem substrAux_middle (pat : List Char) :
    ∀ pre suf : List Char, substrAux pat (pre ++ (pat ++ suf)) = true := by
  intro pre
  induction pre with
  | nil =>
    intro suf
    cases pat with
    | nil => cases suf <;> simp [substrAux, prefixAux]
    | cons a as =>
      have hp : prefixAux (a :: as) (a :: (as ++ suf)) = true := prefixAux_append (a :: as) suf
      simp [substrAux, hp]
  | cons c cs ih => intro suf; simp [substrAux, ih suf]

/-- `List.find?` returns the first element satisfying the test. -/
theorem find?_append_first {α : Type} (p : α → Bool) (pre : List α) (q : α) (post : List α)
    (hpre : ∀ x ∈ pre, p x = false) (hq : p q = true) :
    (pre ++ q :: post).find? p = some q := by
  induction pre with
  | nil => simp [List.find?_cons, hq]
  | cons a as ih =>
    have ha : p a = false := hpre a (List.mem_cons_self a as)
    simp only [List.cons_append, List.find?_cons, ha]
    exact ih fun x hx => hpre x (List.mem_cons_of_mem a hx)

/-! ## Claim theorems -/

/-- C2: for every search backend response, `search_aliyah_information`
returns the fixed "no information found" text on zero result documents,
the distinct fixed "found documents but no answer" text on at least one
document with no usable content, these two texts are never equal, and
otherwise it returns the accumulated newline-joined bullet text. -/
theorem search_fixed_messages_distinct (results : List SearchResult) :
    (results = [] → search_aliyah_information results = no_info_message) ∧
    (results ≠ [] → search_results_text results = "" →
      search_aliyah_information results = no_answer_message) ∧
    no_info_message ≠ no_answer_message ∧
    (search_results_text results ≠ "" →
      search_aliyah_information results = search_results_text results) := by
  refine ⟨?_, ?_, by decide, ?_⟩
  · rintro rfl
    rfl
  · intro hne hempty
    cases results with
    | nil => exact absurd rfl hne
    | cons r rs => simp [search_aliyah_information, hempty]
  · intro hne
    simp [search_aliyah_information, hne]

/-- C2 witness: concrete instances of each hypothesis-guarded case: a
response with one document carrying no derived data accumulates no text and
yields the "no answer" message; a response with one usable snippet yields
its bullet text. -/
theorem search_fixed_messages_distinct_witness :
    search_aliyah_information [⟨⟨none⟩⟩] = no_answer_message ∧
    search_aliyah_information [] = no_info_message := by
  constructor
  · exact (search_fixed_messages_distinct [⟨⟨none⟩⟩]).2.1 (by simp) (by decide)
  · exact (search_fixed_messages_distinct []).1 rfl

/-- C6: extractive-segment content is preferred over snippet content (the
result's text depends only on the segments when any are present), snippets
are the fallback when no segments are present, the placeholder snippet
contributes nothing, and the concrete scenario: one document with
extractive segment "Apply via Clalit..." and link "gov.il/health" yields
exactly the single sourced bullet line. -/
theorem search_extractive_preferred :
    (∀ (link : String) (segs : List SegmentItem) (snips snips' : List SnippetItem),
      segs ≠ [] →
      resultText ⟨⟨some ⟨link, segs, snips⟩⟩⟩ = String.join (segs.map (segmentLine link)) ∧
      resultText ⟨⟨some ⟨link, segs, snips⟩⟩⟩ = resultText ⟨⟨some ⟨link, segs, snips'⟩⟩⟩) ∧
    (∀ (link : String) (snips : List SnippetItem),
      resultText ⟨⟨some ⟨link, [], snips⟩⟩⟩ = String.join (snips.map (snippetLine link))) ∧
    (∀ link : String, snippetLine link ⟨snippet_placeholder⟩ = "") ∧
    search_aliyah_information [⟨⟨some ⟨"gov.il/health", [⟨"Apply via Clalit..."⟩], []⟩⟩⟩] =
      "- Apply via Clalit... (Source: gov.il/health)\n" := by
  refine ⟨?_, ?_, ?_, by decide⟩
  · intro link segs snips snips' hne
    constructor <;> simp [resultText, hne]
  · intro link snips
    simp [resultText]
  · intro link
    have hstrip : pyStrip snippet_placeholder = snippet_placeholder := by decide
    simp [snippetLine, hstrip]

/-- C6 witness: the preference conjunct applied at a concrete document
carrying both a segment and a snippet: only the segment is emitted. -/
theorem search_extractive_preferred_witness :
    resultText ⟨⟨some ⟨"L", [⟨"seg"⟩], [⟨"snip"⟩]⟩⟩⟩ =
      String.join ([SegmentItem.mk "seg"].map (segmentLine "L")) :=
  (search_extractive_preferred.1 "L" [⟨"seg"⟩] [⟨"snip"⟩] [] (by simp)).1

/-- C3: for every failing structured-store query, the tool returns exactly
one row mapping whose only key is `error`, mapped to the exception message,
and the exception-tracking embedding shows the function never raises: it
always returns `.ok` of its total result. -/
theorem branch_lookup_error_sentinel (e : String) :
    find_ministry_of_aliyah_branch (Except.error e) = [[("error", e)]] ∧
    (find_ministry_of_aliyah_branch (Except.error e)).length = 1 ∧
    (∀ row ∈ find_ministry_of_aliyah_branch (Except.error e),
      row.map Prod.fst = ["error"] ∧ row.map Prod.snd = [e]) ∧
    (∀ q : Except String (List Row),
      find_ministry_of_aliyah_branch_exc q = Except.ok (find_ministry_of_aliyah_branch q)) := by
  refine ⟨rfl, rfl, ?_, ?_⟩
  · intro row hrow
    simp only [find_ministry_of_aliyah_branch, List.mem_singleton] at hrow
    subst hrow
    exact ⟨rfl, rfl⟩
  · intro q
    cases q <;> rfl

/-- C3 witness: the theorem at the concrete failure message
"connection failed": the sentinel row and the non-raising equation. -/
theorem branch_lookup_error_sentinel_witness :
    find_ministry_of_aliyah_branch (Except.error "connection failed") =
      [[("error", "connection failed")]] ∧
    find_ministry_of_aliyah_branch_exc (Except.error "connection failed") =
      Except.ok [[("error", "connection failed")]] := by
  have h := branch_lookup_error_sentinel "connection failed"
  exact ⟨h.1, (h.2.2.2 (Except.error "connection failed")).trans (by rw [h.1])⟩

/-- C9: the startup schema lookup's `except:` fallback is unreachable:
`computeBranchSchema` never yields `.unavailable`; on a failing schema
query it holds the sentinel row-sequence instead, and any rendering of the
schema value is embedded verbatim into the system instruction fragment. -/
theorem branch_schema_fallback_unreachable (q : Except String (List Row)) :
    computeBranchSchema q ≠ BranchSchema.unavailable ∧
    (∀ e, q = Except.error e → computeBranchSchema q = BranchSchema.rows [[("error", e)]]) ∧
    (∀ s : String, strContains (first_tasks_path s) s = true) := by
  refine ⟨?_, ?_, ?_⟩
  · cases q <;> simp [computeBranchSchema, find_ministry_of_aliyah_branch_exc]
  · rintro e rfl
    rfl
  · intro s
    show substrAux s.data ("  * Table Schema to use: " ++ (s ++ _)).data = true
    rw [String.data_append, String.data_append]
    exact substrAux_middle s.data _ _

/-- C9 witness: the theorem at the concrete failing schema query
"db down": not the fallback, the sentinel rows, and the embedding at a
concrete schema string. -/
theorem branch_schema_fallback_unreachable_witness :
    computeBranchSchema (Except.error "db down") ≠ BranchSchema.unavailable ∧
    computeBranchSchema (Except.error "db down") = BranchSchema.rows [[("error", "db down")]] ∧
    strContains (first_tasks_path "colA STRING") "colA STRING" = true := by
  have h := branch_schema_fallback_unreachable (Except.error "db down")
  exact ⟨h.1, h.2.1 "db down" rfl, h.2.2 "colA STRING"⟩

/-- C5: whenever the extracted final text contains all three menu marker
phrases (tested, as the code does, on the uppercased text), the menu
formatting step replaces the entire text with the canonical fixed
three-option menu. -/
theorem menu_canonicalization_replaces_text (text : String)
    (h : ∀ k ∈ menu_keywords, strContains (pyUpper text) k = true) :
    menuCanonicalize text = canonical_menu := by
  have h1 := h "GENERAL INFORMATION" (by simp [menu_keywords])
  have hne : text ≠ "" := by
    rintro rfl
    have : strContains (pyUpper "") "GENERAL INFORMATION" = false := by decide
    rw [this] at h1
    exact Bool.false_ne_true h1
  have hall : menu_keywords.all (fun k => strContains (pyUpper text) k) = true :=
    List.all_eq_true.mpr h
  unfold menuCanonicalize
  rw [if_neg hne, if_pos hall]

/-- C5 witness: a lower-case free-form text containing the three markers is
replaced by the canonical menu. -/
theorem menu_canonicalization_replaces_text_witness :
    menuCanonicalize
        "i offer general information, document understanding and first steps help" =
      canonical_menu :=
  menu_canonicalization_replaces_text _ (by decide)

/-- Unfolding of the loop at the iteration cap: the guard fails and the
loop exits with the current response. -/
theorem toolLoop_cap (oracle : Nat → Response) (searchImpl : String → String)
    (branchImpl : String → List Row) (resp : Response) (iteration : Nat)
    (sent : List SentFunctionResponse) (hcap : ¬ iteration < max_iterations) :
    toolLoop oracle searchImpl branchImpl resp iteration sent =
      ⟨resp, iteration, sent.reverse⟩ := by
  rw [toolLoop, dif_neg hcap]

/-- Unfolding of the loop on a response with no tool-call part: the loop
exits at once with the current response. -/
theorem toolLoop_done (oracle : Nat → Response) (searchImpl : String → String)
    (branchImpl : String → List Row) (resp : Response) (iteration : Nat)
    (sent : List SentFunctionResponse) (hlt : iteration < max_iterations)
    (hfc : firstFunctionCall resp = none) :
    toolLoop oracle searchImpl branchImpl resp iteration sent =
      ⟨resp, iteration, sent.reverse⟩ := by
  rw [toolLoop, dif_pos hlt, hfc]

/-- Unfolding of the loop on a response whose first tool-call part carries
`fc`: dispatch it, record the sent function response, move to the oracle's
next response and increment the counter. -/
theorem toolLoop_step (oracle : Nat → Response) (searchImpl : String → String)
    (branchImpl : String → List Row) (resp : Response) (iteration : Nat)
    (sent : List SentFunctionResponse) (fc : FunctionCall)
    (hlt : iteration < max_iterations) (hfc : firstFunctionCall resp = some fc) :
    toolLoop oracle searchImpl branchImpl resp iteration sent =
      toolLoop oracle searchImpl branchImpl (oracle iteration) (iteration + 1)
        (⟨fc.name, dispatchTool searchImpl branchImpl fc⟩ :: sent) := by
  rw [toolLoop, dif_pos hlt, hfc]

/-- Invariant of the tool-calling loop, by induction on the remaining
iteration budget: the iteration counter only grows, never passes
`max_iterations`, each recorded round trip corresponds to one increment,
and the loop only stops on a call-free response or at the cap. -/
theorem toolLoop_bound_aux (oracle : Nat → Response) (searchImpl : String → String)
    (branchImpl : String → List Row) :
    ∀ (n : Nat) (resp : Response) (iteration : Nat) (sent : List SentFunctionResponse),
      max_iterations - iteration = n → iteration ≤ max_iterations →
      iteration ≤ (toolLoop oracle searchImpl branchImpl resp iteration sent).iteration ∧
      (toolLoop oracle searchImpl branchImpl resp iteration sent).iteration ≤ max_iterations ∧
      (toolLoop oracle searchImpl branchImpl resp iteration sent).sent.length + iteration =
        sent.length + (toolLoop oracle searchImpl branchImpl resp iteration sent).iteration ∧
      (firstFunctionCall (toolLoop oracle searchImpl branchImpl resp iteration sent).response
          = none ∨
        (toolLoop oracle searchImpl branchImpl resp iteration sent).iteration
          = max_iterations) := by
  intro n
  induction n with
  | zero =>
    intro resp iteration sent h0 hle
    rw [toolLoop_cap oracle searchImpl branchImpl resp iteration sent (by omega)]
    refine ⟨le_refl _, hle, by simp, Or.inr ?_⟩
    show iteration = max_iterations
    omega
  | succ n ih =>
    intro resp iteration sent h0 hle
    have hlt : iteration < max_iterations := by omega
    cases hfc : firstFunctionCall resp with
    | none =>
      rw [toolLoop_done oracle searchImpl branchImpl resp iteration sent hlt hfc]
      exact ⟨le_refl _, hle, by simp, Or.inl hfc⟩
    | some fc =>
      rw [toolLoop_step oracle searchImpl branchImpl resp iteration sent fc hlt hfc]
      have h := ih (oracle iteration) (iteration + 1)
        (⟨fc.name, dispatchTool searchImpl branchImpl fc⟩ :: sent) (by omega) (by omega)
      refine ⟨by omega, h.2.1, ?_, h.2.2.2⟩
      have h3 := h.2.2.1
      simp only [List.length_cons] at h3
      omega

/-- C1: for every sequence of oracle responses, the tool-calling loop of one
user turn performs at most 5 tool-call round trips, the iteration counter
never exceeds the fixed constant `max_iterations = 5`, and a terminated
loop either holds a response with no tool-call part or has reached the cap. -/
theorem tool_loop_bounded_round_trips (oracle : Nat → Response)
    (searchImpl : String → String) (branchImpl : String → List Row) (resp : Response) :
    max_iterations = 5 ∧
    (toolLoop oracle searchImpl branchImpl resp 0 []).sent.length ≤ 5 ∧
    (toolLoop oracle searchImpl branchImpl resp 0 []).iteration ≤ max_iterations ∧
    (firstFunctionCall (toolLoop oracle searchImpl branchImpl resp 0 []).response = none ∨
      (toolLoop oracle searchImpl branchImpl resp 0 []).iteration = max_iterations) := by
  have h := toolLoop_bound_aux oracle searchImpl branchImpl max_iterations resp 0 [] rfl
    (by omega)
  have h3 := h.2.2.1
  have h2 := h.2.1
  simp only [List.length_nil, Nat.add_zero, Nat.zero_add] at h3
  exact ⟨rfl, by rw [h3]; exact h2, h2, h.2.2.2⟩

/-- C7: dispatching a tool name that is neither registered tool yields the
literal sentinel text "Unknown tool.", which is sent back to the LLM as a
function response exactly like a normal tool result, and the loop continues
with the oracle's next response. -/
theorem unknown_tool_sentinel_continues (oracle : Nat → Response)
    (searchImpl : String → String) (branchImpl : String → List Row) (resp : Response)
    (iteration : Nat) (sent : List SentFunctionResponse) (fc : FunctionCall)
    (hiter : iteration < max_iterations)
    (hfc : firstFunctionCall resp = some fc)
    (h1 : fc.name ≠ "search_aliyah_information")
    (h2 : fc.name ≠ "find_ministry_of_aliyah_branch") :
    dispatchTool searchImpl branchImpl fc = ToolOutput.text "Unknown tool." ∧
    toolLoop oracle searchImpl branchImpl resp iteration sent =
      toolLoop oracle searchImpl branchImpl (oracle iteration) (iteration + 1)
        (⟨fc.name, ToolOutput.text "Unknown tool."⟩ :: sent) := by
  have hd : dispatchTool searchImpl branchImpl fc = ToolOutput.text "Unknown tool." := by
    unfold dispatchTool
    rw [if_neg h1, if_neg h2]
  refine ⟨hd, ?_⟩
  rw [toolLoop_step oracle searchImpl branchImpl resp iteration sent fc hiter hfc, hd]

/-- C7 witness: the theorem at a concrete response requesting the
unregistered tool name "translate_text" at iteration 0. -/
theorem unknown_tool_sentinel_continues_witness :
    toolLoop (fun _ => Response.mk [] (some "done")) (fun _ => "") (fun _ => [])
        (Response.mk [Candidate.mk (Content.mk
          [Part.mk none (some (FunctionCall.mk "translate_text" "hi"))])] none) 0 [] =
      toolLoop (fun _ => Response.mk [] (some "done")) (fun _ => "") (fun _ => [])
        (Response.mk [] (some "done")) 1
        [⟨"translate_text", ToolOutput.text "Unknown tool."⟩] :=
  (unknown_tool_sentinel_continues (fun _ => Response.mk [] (some "done")) (fun _ => "")
    (fun _ => [])
    (Response.mk [Candidate.mk (Content.mk
      [Part.mk none (some (FunctionCall.mk "translate_text" "hi"))])] none) 0 []
    (FunctionCall.mk "translate_text" "hi") (by decide) rfl (by decide) (by decide)).2

/-- C8: within one loop iteration, exactly one tool request is executed,
namely the one of the first part of the first candidate that carries a
function call; every part after it, including further tool-call parts, is
ignored: the loop proceeds exactly as dictated by that first call. -/
theorem first_function_call_first_match (oracle : Nat → Response)
    (searchImpl : String → String) (branchImpl : String → List Row)
    (cs : List Candidate) (t : Option String) (pre post : List Part) (q : Part)
    (fc : FunctionCall) (iteration : Nat) (sent : List SentFunctionResponse)
    (hiter : iteration < max_iterations)
    (hpre : ∀ x ∈ pre, x.function_call = none)
    (hq : q.function_call = some fc) :
    firstFunctionCall (Response.mk (Candidate.mk (Content.mk (pre ++ q :: post)) :: cs) t)
      = some fc ∧
    toolLoop oracle searchImpl branchImpl
        (Response.mk (Candidate.mk (Content.mk (pre ++ q :: post)) :: cs) t) iteration sent =
      toolLoop oracle searchImpl branchImpl (oracle iteration) (iteration + 1)
        (⟨fc.name, dispatchTool searchImpl branchImpl fc⟩ :: sent) := by
  have hfind : (pre ++ q :: post).find? (fun p => p.function_call.isSome) = some q :=
    find?_append_first _ pre q post (fun x hx => by simp [hpre x hx]) (by simp [hq])
  have hfc : firstFunctionCall
      (Response.mk (Candidate.mk (Content.mk (pre ++ q :: post)) :: cs) t) = some fc := by
    unfold firstFunctionCall
    simp [hfind, hq]
  refine ⟨hfc, ?_⟩
  exact toolLoop_step oracle searchImpl branchImpl _ iteration sent fc hiter hfc

/-- C8 witness: the theorem at a concrete response whose first candidate
carries a text part, then a call of the search tool, then a second tool
call; only the first call is executed. -/
theorem first_function_call_first_match_witness :
    toolLoop (fun _ => Response.mk [] none) (fun q => q) (fun _ => [])
        (Response.mk [Candidate.mk (Content.mk
          [Part.mk (some "thinking") none,
           Part.mk none (some (FunctionCall.mk "search_aliyah_information" "visa")),
           Part.mk none (some (FunctionCall.mk "find_ministry_of_aliyah_branch" "x"))])]
          none) 0 [] =
      toolLoop (fun _ => Response.mk [] none) (fun q => q) (fun _ => [])
        (Response.mk [] none) 1
        [⟨"search_aliyah_information",
          dispatchTool (fun q => q) (fun _ => []) (FunctionCall.mk "search_aliyah_information" "visa")⟩] :=
  (first_function_call_first_match (fun _ => Response.mk [] none) (fun q => q) (fun _ => [])
    [] none [Part.mk (some "thinking") none]
    [Part.mk none (some (FunctionCall.mk "find_ministry_of_aliyah_branch" "x"))]
    (Part.mk none (some (FunctionCall.mk "search_aliyah_information" "visa")))
    (FunctionCall.mk "search_aliyah_information" "visa") 0 []
    (by decide) (by decide) rfl).2

/-- C10: only the first candidate is inspected for tool calls: when the
first candidate's parts carry no function call, the loop terminates at once
without executing any tool, whatever the later candidates contain; and a
response with zero candidates likewise terminates the loop with no tool
executed. -/
theorem only_first_candidate_inspected (oracle : Nat → Response)
    (searchImpl : String → String) (branchImpl : String → List Row)
    (c : Candidate) (cs : List Candidate) (t t' : Option String)
    (h : ∀ p ∈ c.content.parts, p.function_call = none) :
    toolLoop oracle searchImpl branchImpl (Response.mk (c :: cs) t) 0 [] =
      ⟨Response.mk (c :: cs) t, 0, []⟩ ∧
    toolLoop oracle searchImpl branchImpl (Response.mk [] t') 0 [] =
      ⟨Response.mk [] t', 0, []⟩ := by
  have hfc : firstFunctionCall (Response.mk (c :: cs) t) = none := by
    unfold firstFunctionCall
    have : c.content.parts.find? (fun p => p.function_call.isSome) = none :=
      List.find?_eq_none.mpr fun x hx => by simp [h x hx]
    simp [this]
  constructor
  · exact toolLoop_done oracle searchImpl branchImpl _ 0 [] (by decide) hfc
  · exact toolLoop_done oracle searchImpl branchImpl _ 0 [] (by decide) rfl

/-- C10 witness: the theorem at a response whose first candidate holds only
a text part while the SECOND candidate requests a tool: no tool runs. -/
theorem only_first_candidate_inspected_witness :
    toolLoop (fun _ => Response.mk [] none) (fun _ => "") (fun _ => [])
        (Response.mk
          [Candidate.mk (Content.mk [Part.mk (some "hello") none]),
           Candidate.mk (Content.mk
             [Part.mk none (some (FunctionCall.mk "search_aliyah_information" "q"))])]
          (some "hello")) 0 [] =
      ⟨Response.mk
        [Candidate.mk (Content.mk [Part.mk (some "hello") none]),
         Candidate.mk (Content.mk
           [Part.mk none (some (FunctionCall.mk "search_aliyah_information" "q"))])]
        (some "hello"), 0, []⟩ :=
  (only_first_candidate_inspected (fun _ => Response.mk [] none) (fun _ => "") (fun _ => [])
    (Candidate.mk (Content.mk [Part.mk (some "hello") none]))
    [Candidate.mk (Content.mk
      [Part.mk none (some (FunctionCall.mk "search_aliyah_information" "q"))])]
    (some "hello") none (by decide)).1

/-- C4 counterexample: the user text " upload" (leading space) trimmed and
lowercased equals "upload", so the claim demands the no-file warning
short-circuit; but the code compares `user_text.lower()` WITHOUT trimming,
so the gate does not fire and the text is passed through unchanged to the
LLM. -/
theorem upload_gate_trim_counterexample :
    pyLower (pyStrip " upload") = "upload" ∧
    prepare_message_parts " upload" none = Except.ok [MsgPart.text " upload"] ∧
    prepare_message_parts " upload" none ≠ Except.error upload_warning := by
  have hok : prepare_message_parts " upload" none = Except.ok [MsgPart.text " upload"] := rfl
  refine ⟨by decide, hok, ?_⟩
  rw [hok]
  exact fun h => Except.noConfusion h

/-- C4 (amended): for every user turn whose text, lowercased WITHOUT
trimming, equals "upload": with no file attached the turn short-circuits,
the LLM and loop are never invoked (the turn's outcome is the fixed warning
as sole assistant addition, for every oracle and send function), and with a
file attached the outgoing parts are exactly the fixed instruction plus the
binary part; any other text is passed through unchanged. -/
theorem upload_gate_lower_no_trim (user_text : String) (uploaded_file : Option UploadedFile)
    (oracle : Nat → Response) (send : List MsgPart → Response)
    (searchImpl : String → String) (branchImpl : String → List Row) :
    (pyLower user_text = "upload" →
      (uploaded_file = none →
        prepare_message_parts user_text uploaded_file = Except.error upload_warning ∧
        runTurn oracle send searchImpl branchImpl user_text none = [upload_warning]) ∧
      (∀ f, uploaded_file = some f →
        prepare_message_parts user_text uploaded_file =
          Except.ok [MsgPart.text upload_instruction, MsgPart.fileData f.bytes f.mime])) ∧
    (pyLower user_text ≠ "upload" →
      prepare_message_parts user_text uploaded_file = Except.ok [MsgPart.text user_text]) := by
  constructor
  · intro hcmd
    constructor
    · rintro rfl
      have hp : prepare_message_parts user_text none = Except.error upload_warning := by
        unfold prepare_message_parts
        rw [if_pos hcmd]
      refine ⟨hp, ?_⟩
      unfold runTurn
      rw [hp]
    · rintro f rfl
      unfold prepare_message_parts
      rw [if_pos hcmd]
  · intro hcmd
    unfold prepare_message_parts
    rw [if_neg hcmd]

/-- C4 witness: the amended theorem at the concrete turn "UPLOAD" with no
attached file, under a concrete oracle: the warning is the turn's sole
assistant addition. -/
theorem upload_gate_lower_no_trim_witness :
    runTurn (fun _ => Response.mk [] none) (fun _ => Response.mk [] none)
      (fun _ => "") (fun _ => []) "UPLOAD" none = [upload_warning] :=
  (((upload_gate_lower_no_trim "UPLOAD" none (fun _ => Response.mk [] none)
    (fun _ => Response.mk [] none) (fun _ => "") (fun _ => [])).1 (by decide)).1 rfl).2

end OlehAssist
